import Mathlib

/-!
Verification of the powermolecli CLI driver (src/powermolecli/powermolecli.py).

The driver is glue code around an external library: it parses arguments and a
configuration file, constructs collaborator objects (transfer agent, tunnel,
bootstrap agent, one of four mode instructors), runs an external setup routine,
opens a heartbeat scope and then blocks in a mode-specific loop.

Shallow embedding: every externally observable action of the driver (object
construction, logging, scope open and close, command execution, printing,
sleeping) is recorded as an `Event`.  The behaviour of the external library and
of the operator is captured by an `Env` record: the result of the external
`Configuration` constructor (`none` models the `InvalidConfigurationFile`
exception), whether `setup_link` raises `SetupFailed`, the lines available on
standard input before a `KeyboardInterrupt` arrives, the decoded response of
`exec_command`, and the number of completed sleep ticks before an interrupt
arrives in each idle loop.  `main` is then a total function from `Env` to the
trace of events together with a terminal `Outcome`.
-/

namespace Powermole

/-- Path of the generated ssh client configuration file, `LOCAL_PATH_SSH_CFG`. -/
def LOCAL_PATH_SSH_CFG : String := "/tmp/ssh_cfg_minitor"

def LOCAL_PORT_AGENT : Nat := 33191
def LOCAL_PORT_PROXY : Nat := 8080
def LOCAL_PORT_HEARTBEAT : Nat := 33193
def LOCAL_PORT_TRANSFER : Nat := 33194
def LOCAL_PORT_COMMAND : Nat := 33195
def REMOTE_PORT_AGENT : Nat := 44191
def REMOTE_PORT_PROXY : Nat := 44192
def REMOTE_PORT_HEARTBEAT : Nat := 44193
def REMOTE_PORT_TRANSFER : Nat := 44194
def REMOTE_PORT_COMMAND : Nat := 44195

def MACHINE_DEPLOY_PATH : String := "/tmp/"

/-- Module constant `DEBUG`, false in the source. -/
def DEBUG : Bool := false

/-- The fixed port table `GROUP_PORTS` of the source module. -/
def GROUP_PORTS : List (String × Nat) :=
  [ ("local_port_agent", LOCAL_PORT_AGENT),
    ("local_port_proxy", LOCAL_PORT_PROXY),
    ("local_port_heartbeat", LOCAL_PORT_HEARTBEAT),
    ("local_port_transfer", LOCAL_PORT_TRANSFER),
    ("local_port_command", LOCAL_PORT_COMMAND),
    ("remote_port_agent", REMOTE_PORT_AGENT),
    ("remote_port_proxy", REMOTE_PORT_PROXY),
    ("remote_port_heartbeat", REMOTE_PORT_HEARTBEAT),
    ("remote_port_transfer", REMOTE_PORT_TRANSFER),
    ("remote_port_command", REMOTE_PORT_COMMAND) ]

/-- Dictionary access `GROUP_PORTS[key]` (every key used by the driver is present). -/
def groupPort (key : String) : Nat := ((GROUP_PORTS.lookup key).getD 0)

/-- The `config.application` dictionary: binary name and location. -/
structure Application where
  binary_name : String
  binary_location : String
deriving DecidableEq

/-- The structured object produced by the external `Configuration` loader,
restricted to the fields the driver reads. -/
structure Configuration where
  mode : String
  gateways : List String
  destination_host_ip : String
  all_hosts : List String
  forwarders_string : String
  forwarders_ports : List Nat
  files : List String
  application : Option Application
deriving DecidableEq

/-- Which of the four instructor variants the dispatch constructs. -/
inductive Instructor
  | ForInstructor
  | TorInstructor
  | FileInstructor
  | InteractiveInstructor
deriving DecidableEq

/-- Externally observable action of a driver run. -/
inductive Event
  | logInfo (msg : String)
  | logInfoArg (fmt : String) (arg : String)
  | logWarning (msg : String)
  | logError (msg : String)
  | openStateManager
  | closeStateManager
  | writeSshConfigFile (path : String) (gateways : List String) (destination : String)
  | constructTransferAgent (path : String) (hosts : List String)
  | constructTunnel (path : String) (mode : String) (hosts : List String)
      (forwarders : Option String)
  | constructBootstrapAgent
  | constructInstructor (variant : Instructor)
  | evalSystemExit (site : Nat) (code : Nat)
  | setupLink
  | purgeBuffer
  | openHeartbeat (port : Nat)
  | closeHeartbeat
  | execCommand (cmd : String)
  | print (line : String)
  | transfer (files : List String)
  | startApplication (name : String) (location : String)
  | sleep (seconds : Nat)
  | terminateProcess
  | tunnelDebug
deriving DecidableEq

/-- Terminal outcome of a driver run. -/
inductive Outcome
  | returnedNone
  | exited (code : Nat)
  | keyboardInterrupt
  | nameError (name : String)
  | setupFailedO (msg : String)
deriving DecidableEq

/-- Environment of a run: the behaviour of the external collaborators and of the
operator, which together determine the trace of the deterministic driver. -/
structure Env where
  parsedConfig : Option Configuration
  setupFails : Bool
  setupFailMsg : String
  stdinLines : List String
  execResponse : String → String
  appSleeps : Nat
  idleSleeps : Nat

/-- Log lines emitted by `parse_config_file` for a recognised mode value. -/
def modeLog (mode : String) : List Event :=
  if mode == "FILE" then [ .logInfo "mode FILE enabled" ]
  else if mode == "INTERACTIVE" then [ .logInfo "mode INTERACTIVE enabled" ]
  else if mode == "FOR" then [ .logInfo "mode FOR enabled" ]
  else if mode == "TOR" then [ .logInfo "mode TOR enabled" ]
  else []

/-- Embedding of `parse_config_file`: the external constructor result is given;
`none` models the `InvalidConfigurationFile` exception, which the function
catches and turns into an absent result without logging. -/
def parse_config_file (parsed : Option Configuration) : Option Configuration × List Event :=
  match parsed with
  | none => (none, [])
  | some config => (some config, modeLog config.mode)

/-- The four-way instructor dispatch of `main`.  Returns the construction events
and whether the locals `tunnel`, `bootstrapagent` and `assistant` were bound
(the defensive else branch evaluates `SystemExit(1)` without raising it and
binds nothing). -/
def dispatch (config : Configuration) : List Event × Bool :=
  if config.mode == "FOR" then
    ([ .constructTunnel LOCAL_PATH_SSH_CFG config.mode config.all_hosts
         (some config.forwarders_string),
       .constructBootstrapAgent,
       .constructInstructor .ForInstructor ], true)
  else if config.mode == "TOR" then
    ([ .constructTunnel LOCAL_PATH_SSH_CFG config.mode config.all_hosts none,
       .constructBootstrapAgent,
       .constructInstructor .TorInstructor ], true)
  else if config.mode == "FILE" then
    ([ .constructTunnel LOCAL_PATH_SSH_CFG config.mode config.all_hosts none,
       .constructBootstrapAgent,
       .constructInstructor .FileInstructor ], true)
  else if config.mode == "INTERACTIVE" then
    ([ .constructTunnel LOCAL_PATH_SSH_CFG config.mode config.all_hosts none,
       .constructBootstrapAgent,
       .constructInstructor .InteractiveInstructor ], true)
  else
    ([ .evalSystemExit 1 1 ], false)

/-- Character-level split, the semantics of the Python single-character
`str.split`: the list of maximal runs between separator occurrences, with an
empty run at each end when the separator starts or ends the string. -/
def pySplitAux (sep : Char) : List Char → List (List Char)
  | [] => [ [] ]
  | c :: rest =>
      let r := pySplitAux sep rest
      if c == sep then [] :: r
      else
        match r with
        | [] => [ [ c ] ]
        | h :: t => (c :: h) :: t

/-- Python `s.split(sep)` for a one-character separator. -/
def pySplit (s : String) (sep : Char) : List String :=
  (pySplitAux sep s.data).map (fun cs => String.mk cs)

/-- One pass of the interactive while body: forward the line verbatim, decode
the response, split it on the newline character and print each piece behind
the prompt prefix. -/
def interactiveStep (execResponse : String → String) (cmd : String) : List Event :=
  .execCommand cmd ::
    ((pySplit (execResponse cmd) (Char.ofNat 10)).map (fun line => .print (">    " ++ line)))

/-- The split character used by the interactive loop is the newline. -/
lemma newlineChar : Char.ofNat 10 = '\n' := rfl

/-- The interactive input loop over the lines available before the interrupt. -/
def interactiveLoop (execResponse : String → String) : List String → List Event
  | [] => []
  | cmd :: rest => interactiveStep execResponse cmd ++ interactiveLoop execResponse rest

/-- One iteration of the final 1-second idle loop. -/
def idleIteration : List Event :=
  (if DEBUG then [ .logWarning "debugging mode enabled", .tunnelDebug ] else []) ++ [ .sleep 1 ]

/-- Code after the mode branch inside the heartbeat scope: optionally launch the
configured application and idle in 5-second ticks until interrupted (the child
is then terminated and the interrupt re-raised), otherwise idle in 1-second
ticks until interrupted. -/
def afterModeBranch (config : Configuration) (env : Env) : List Event × Outcome :=
  match config.application with
  | some app =>
      ([ .logInfo "starting application...",
         .startApplication app.binary_name app.binary_location ]
         ++ List.replicate env.appSleeps (.sleep 5)
         ++ [ .terminateProcess ],
       .keyboardInterrupt)
  | none =>
      ((List.replicate env.idleSleeps idleIteration).flatten, .keyboardInterrupt)

/-- Body of the `Heartbeat` with-block: the mode loop. -/
def heartbeatBody (config : Configuration) (env : Env) : List Event × Outcome :=
  if config.mode == "FOR" then
    let after := afterModeBranch config env
    ([ .logInfoArg "connections on local ports %s will be forwarded"
         (toString config.forwarders_ports),
       .logInfo "READY" ] ++ after.1, after.2)
  else if config.mode == "TOR" then
    let after := afterModeBranch config env
    ([ .logInfoArg "local port %s will be listening for web traffic"
         (toString (groupPort "local_port_proxy")),
       .logInfo "READY" ] ++ after.1, after.2)
  else if config.mode == "INTERACTIVE" then
    ([ .logWarning "the interface does not support shell meta characters ",
       .logWarning "such as pipe and it\x27s not possible to interact with ",
       .logWarning "programs that need a response. hit control-c to quit" ]
       ++ interactiveLoop env.execResponse env.stdinLines,
     .exited 0)
  else if config.mode == "FILE" then
    ([ .transfer config.files ], .exited 0)
  else
    let after := afterModeBranch config env
    (.evalSystemExit 2 1 :: after.1, after.2)

/-- Body of the `StateManager` with-block: write the ssh configuration,
construct the collaborators, run `setup_link`, start buffer purging, and run
the heartbeat scope around the mode loop.  When the dispatch bound nothing the
`setup_link` call site raises an unbound-local error on evaluating `tunnel`. -/
def stateBody (config : Configuration) (env : Env) : List Event × Outcome :=
  let pre : List Event :=
    [ .writeSshConfigFile LOCAL_PATH_SSH_CFG config.gateways config.destination_host_ip,
      .constructTransferAgent LOCAL_PATH_SSH_CFG config.all_hosts ]
  let d := dispatch config
  if !d.2 then
    (pre ++ d.1, .nameError "tunnel")
  else if env.setupFails then
    (pre ++ d.1 ++ [ .setupLink ], .setupFailedO env.setupFailMsg)
  else
    let hb := heartbeatBody config env
    (pre ++ d.1
       ++ [ .setupLink, .purgeBuffer, .openHeartbeat (groupPort "local_port_heartbeat") ]
       ++ hb.1 ++ [ .closeHeartbeat ],
     hb.2)

/-- Embedding of `main` from the configuration load onwards: an absent
configuration returns early; otherwise the state-manager scope runs the body
and closes on every exit path, and a `SetupFailed` escaping the scope is caught,
logged and converted into exit code 1. -/
def main (env : Env) : List Event × Outcome :=
  match parse_config_file env.parsedConfig with
  | (none, evs) => (evs, .returnedNone)
  | (some config, logEvs) =>
    let b := stateBody config env
    let evs := logEvs ++ [ .openStateManager ] ++ b.1 ++ [ .closeStateManager ]
    match b.2 with
    | .setupFailedO msg => (evs ++ [ .logError msg ], .exited 1)
    | out => (evs, out)

/-- Parsed command-line arguments with their defaults. -/
structure Args where
  config_file : String
  log_level : String
deriving DecidableEq

/-- The fixed choices of the `--log-level` option. -/
def LOG_LEVEL_CHOICES : List String := [ "debug", "info", "warning", "error", "critical" ]

/-- Test whether the first character list is an initial segment of the second. -/
def charsStart : List Char → List Char → Bool
  | [], _ => true
  | _ :: _, [] => false
  | a :: as, b :: bs => a == b && charsStart as bs

/-- String prefix test over the underlying character lists. -/
def strStarts (p s : String) : Bool := charsStart p.data s.data

/-- Split a character list at the first occurrence of a separator. -/
def splitFirstAux (sep : Char) : List Char → Option (List Char × List Char)
  | [] => none
  | c :: rest =>
      if c == sep then some ([], rest)
      else
        match splitFirstAux sep rest with
        | none => none
        | some p => some (c :: p.1, p.2)

/-- Split a string at the first occurrence of a separator character. -/
def splitFirst (s : String) (sep : Char) : Option (String × String) :=
  match splitFirstAux sep s.data with
  | none => none
  | some p => some (String.mk p.1, String.mk p.2)

/-- First `n` characters of a string. -/
def strTake (s : String) (n : Nat) : String := String.mk (s.data.take n)

/-- String without its first `n` characters. -/
def strDrop (s : String) (n : Nat) : String := String.mk (s.data.drop n)

/-- Argparse's negative-number matcher, the regular expression
dash digits, or dash digits dot digits (integer part optional). -/
def isNegNumberTok (t : String) : Bool :=
  match t.data with
  | [] => false
  | c :: rest =>
      c == Char.ofNat 45 &&
      ((!rest.isEmpty && rest.all Char.isDigit) ||
       (match splitFirstAux (Char.ofNat 46) rest with
        | some p => p.1.all Char.isDigit && !p.2.isEmpty && p.2.all Char.isDigit
        | none => false))

/-- How argparse classifies one command-line token for this parser. -/
inductive TokClass
  | optHelp (arg : Option String)
  | optConfig (arg : Option String)
  | optLog (arg : Option String)
  | ambiguousOpt
  | plainArg
  | unknownOpt
deriving DecidableEq

/-- The long option strings of the parser, help included. -/
def LONG_OPTIONS : List String := [ "--config-file", "--log-level", "--help" ]

/-- Map a matched long option string to its token class. -/
def longOptClass (o : String) (arg : Option String) : TokClass :=
  if o == "--config-file" then .optConfig arg
  else if o == "--log-level" then .optLog arg
  else .optHelp arg

/-- Argparse's `_get_option_tuples` fallback for a token that is no exact
option string: long-option prefix abbreviations (with an optional equals-sign
argument, ambiguous when the pre-equals part abbreviates several options),
glued short-option values such as `-cfoo`, then the negative-number and
embedded-space fallbacks that make a token count as a plain argument. -/
def getOptionTuples (t : String) : TokClass :=
  if strStarts "--" t then
    let pa : String × Option String :=
      match splitFirst t (Char.ofNat 61) with
      | some p => (p.1, some p.2)
      | none => (t, none)
    match LONG_OPTIONS.filter (fun o => strStarts pa.1 o) with
    | [] => if t.data.contains (Char.ofNat 32) then .plainArg else .unknownOpt
    | [ o ] => longOptClass o pa.2
    | _ => .ambiguousOpt
  else if strTake t 2 == "-h" then .optHelp (some (strDrop t 2))
  else if strTake t 2 == "-c" then .optConfig (some (strDrop t 2))
  else if strTake t 2 == "-L" then .optLog (some (strDrop t 2))
  else if isNegNumberTok t then .plainArg
  else if t.data.contains (Char.ofNat 32) then .plainArg
  else .unknownOpt

/-- Argparse's `_parse_optional` for this parser: a token is a plain argument
when it is empty, does not start with a dash, is a lone dash, looks like a
negative number, or is option-like but matches nothing and contains a space;
exact option strings match first, then an equals-sign split against the exact
option strings, then the abbreviation and glued-value fallback. -/
def classify (t : String) : TokClass :=
  if t == "" then .plainArg
  else if !(strStarts "-" t) then .plainArg
  else if t == "-h" || t == "--help" then .optHelp none
  else if t == "-c" || t == "--config-file" then .optConfig none
  else if t == "-L" || t == "--log-level" then .optLog none
  else if t.data.length == 1 then .plainArg
  else
    match splitFirst t (Char.ofNat 61) with
    | some p =>
        if p.1 == "-h" || p.1 == "--help" then .optHelp (some p.2)
        else if p.1 == "-c" || p.1 == "--config-file" then .optConfig (some p.2)
        else if p.1 == "-L" || p.1 == "--log-level" then .optLog (some p.2)
        else getOptionTuples t
    | none => getOptionTuples t

/-- Token-level model of the argparse consumption loop: a store option takes
its attached argument, or consumes the next token only when that token is
classified as a plain argument (otherwise argparse reports an expected
argument and exits 2); the log level must be one of the fixed choices; the
help option exits 0 the moment it is processed; plain or unrecognised tokens
are collected and reported as unrecognised arguments (exit 2) at the end; a
reachable bare double dash ends in the unrecognised-arguments exit as well. -/
def parseTokens : List String → Args → Bool → Except Nat Args
  | [], acc, extras => if extras then .error 2 else .ok acc
  | tok :: rest, acc, extras =>
    if tok == "--" then .error 2
    else
      match classify tok with
      | .optHelp none => .error 0
      | .optHelp (some _) => .error 2
      | .optConfig (some v) => parseTokens rest { acc with config_file := v } extras
      | .optConfig none =>
          match rest with
          | [] => .error 2
          | v :: rest2 =>
              if classify v == .plainArg then
                parseTokens rest2 { acc with config_file := v } extras
              else .error 2
      | .optLog (some v) =>
          if LOG_LEVEL_CHOICES.contains v then
            parseTokens rest { acc with log_level := v } extras
          else .error 2
      | .optLog none =>
          match rest with
          | [] => .error 2
          | v :: rest2 =>
              if classify v == .plainArg then
                if LOG_LEVEL_CHOICES.contains v then
                  parseTokens rest2 { acc with log_level := v } extras
                else .error 2
              else .error 2
      | .ambiguousOpt => .error 2
      | .plainArg => parseTokens rest acc true
      | .unknownOpt => parseTokens rest acc true

/-- Embedding of `get_arguments`: argparse first classifies every token up to
the first bare double dash and exits 2 on an ambiguous abbreviation, then runs
the consumption loop starting from the documented defaults (empty
configuration path, log level info). -/
def get_arguments (argv : List String) : Except Nat Args :=
  if (argv.takeWhile (fun t => t != "--")).any (fun t => classify t == .ambiguousOpt) then
    .error 2
  else parseTokens argv { config_file := "", log_level := "info" } false

/-- The instructor variant the specification associates with each valid mode. -/
def instructorOf (mode : String) : Instructor :=
  if mode == "FOR" then .ForInstructor
  else if mode == "TOR" then .TorInstructor
  else if mode == "FILE" then .FileInstructor
  else .InteractiveInstructor

/-- Recogniser for instructor-construction events. -/
def isInstructorEvent : Event → Bool
  | .constructInstructor _ => true
  | _ => false

/-- Recogniser for the events only a mode loop can produce. -/
def isModeLoopEvent : Event → Bool
  | .execCommand _ => true
  | .print _ => true
  | .transfer _ => true
  | .sleep _ => true
  | .startApplication _ _ => true
  | .terminateProcess => true
  | .tunnelDebug => true
  | _ => false

/-- Recogniser for transfer events. -/
def isTransferEvent : Event → Bool
  | .transfer _ => true
  | _ => false

/-- The heartbeat port read out of the fixed port table. -/
lemma groupPort_heartbeat : groupPort "local_port_heartbeat" = 33193 := rfl

/-- With the debug flag off, the 1-second idle loop is a run of sleep ticks. -/
lemma idle_flatten (n : Nat) :
    (List.replicate n idleIteration).flatten = List.replicate n (.sleep 1) := by
  induction n with
  | zero => rfl
  | succ k ih => simp [List.replicate_succ, idleIteration, DEBUG, ih]

/-- The interactive loop unrolled: per input line, one exec-command event
followed by one print event per newline-separated piece of the response. -/
lemma interactiveLoop_eq_flatMap (f : String → String) (ls : List String) :
    interactiveLoop f ls =
      ls.flatMap (fun cmd =>
        .execCommand cmd ::
          ((pySplit (f cmd) (Char.ofNat 10)).map (fun line => .print (">    " ++ line)))) := by
  induction ls with
  | nil => rfl
  | cons c rest ih => simp [interactiveLoop, interactiveStep, ih]

/-- The interactive loop never launches an application. -/
lemma interactiveLoop_no_start (f : String → String) (ls : List String)
    (name loc : String) : Event.startApplication name loc ∉ interactiveLoop f ls := by
  induction ls with
  | nil => simp [interactiveLoop]
  | cons c rest ih => simp [interactiveLoop, interactiveStep, ih]

/-- The interactive loop constructs no instructor. -/
lemma interactiveLoop_no_instructor (f : String → String) (ls : List String) :
    (interactiveLoop f ls).filter isInstructorEvent = [] := by
  induction ls with
  | nil => rfl
  | cons c rest ih =>
      simp [interactiveLoop, interactiveStep, isInstructorEvent, ih, List.filter_append]

/-- The code after the mode branch constructs no instructor. -/
lemma afterModeBranch_no_instructor (config : Configuration) (env : Env) :
    ((afterModeBranch config env).1).filter isInstructorEvent = [] := by
  cases happ : config.application with
  | none =>
      simp [afterModeBranch, happ, idle_flatten, List.filter_eq_nil_iff,
        List.mem_replicate, isInstructorEvent]
  | some app =>
      simp [afterModeBranch, happ, isInstructorEvent, List.filter_append,
        List.filter_eq_nil_iff, List.mem_replicate]

/-- The heartbeat-scope body constructs no instructor. -/
lemma heartbeatBody_no_instructor (config : Configuration) (env : Env) :
    ((heartbeatBody config env).1).filter isInstructorEvent = [] := by
  unfold heartbeatBody
  by_cases h1 : config.mode == "FOR"
  · simp [h1, isInstructorEvent, List.filter_append, afterModeBranch_no_instructor]
  by_cases h2 : config.mode == "TOR"
  · simp [h1, h2, isInstructorEvent, List.filter_append, afterModeBranch_no_instructor]
  by_cases h3 : config.mode == "INTERACTIVE"
  · simp [h1, h2, h3, isInstructorEvent, List.filter_append, interactiveLoop_no_instructor]
  by_cases h4 : config.mode == "FILE"
  · simp [h1, h2, h3, h4, isInstructorEvent]
  · simp [h1, h2, h3, h4, isInstructorEvent, afterModeBranch_no_instructor]

/-- The after-branch code always ends by re-raising the interrupt. -/
lemma afterModeBranch_snd (config : Configuration) (env : Env) :
    (afterModeBranch config env).2 = .keyboardInterrupt := by
  cases h : config.application <;> simp [afterModeBranch, h]

/-- The heartbeat-scope body ends either in a zero exit or in an interrupt. -/
lemma heartbeatBody_snd (config : Configuration) (env : Env) :
    (heartbeatBody config env).2 = .exited 0 ∨
    (heartbeatBody config env).2 = .keyboardInterrupt := by
  unfold heartbeatBody
  split_ifs <;> simp [afterModeBranch_snd]

/-- C1: when the configuration parse raises the invalid-configuration error
(modelled by an absent external parse result), `parse_config_file` returns an
absent result and `main` returns at once with an empty trace, so no state
manager scope is opened and no transfer agent, tunnel, bootstrap agent or
instructor is constructed. -/
theorem C1_invalid_config_no_session (env : Env) (h : env.parsedConfig = none) :
    (parse_config_file env.parsedConfig).1 = none ∧
    main env = ([], .returnedNone) := by
  simp [main, parse_config_file, h]

/-- Witness for C1: a concrete run whose configuration fails to parse. -/
theorem C1_invalid_config_no_session_witness :
    (parse_config_file (Env.mk none false "" [] (fun _ => "") 0 0).parsedConfig).1 = none ∧
    main (Env.mk none false "" [] (fun _ => "") 0 0) = ([], .returnedNone) :=
  C1_invalid_config_no_session (Env.mk none false "" [] (fun _ => "") 0 0) rfl

/-- C6 counterexample: the command line with an invalid log-level choice does
not produce a parsed-arguments value; argparse exits with code 2, refuting the
claim that no command-line input triggers a process exit. -/
theorem C6_counterexample :
    get_arguments [ "--log-level", "bogus" ] = .error 2 ∧
    ∀ a : Args, get_arguments [ "--log-level", "bogus" ] ≠ .ok a :=
  ⟨rfl, fun _ h => Except.noConfusion h⟩

/-- A token that does not begin with a dash is classified as a plain argument. -/
lemma classify_plain (t : String) (h : strStarts "-" t = false) :
    classify t = .plainArg := by
  by_cases he : t = ""
  · simp [classify, he]
  · simp [classify, he, h]

/-- A token that does not begin with a dash is not the bare double dash. -/
lemma ne_ddash (t : String) (h : strStarts "-" t = false) : t ≠ "--" := by
  intro e
  subst e
  exact absurd h (by decide)

/-- A split with an empty pre part means the list began with the separator. -/
lemma splitFirstAux_nil_pre (sep : Char) (l post : List Char)
    (h : splitFirstAux sep l = some ([], post)) : l = sep :: post := by
  cases l with
  | nil => simp [splitFirstAux] at h
  | cons c rest =>
      by_cases hc : (c == sep) = true
      · have hce : c = sep := by simpa using hc
        subst hce
        simp [splitFirstAux] at h
        simp [h]
      · cases hsp : splitFirstAux sep rest with
        | none => simp [splitFirstAux, hc, hsp] at h
        | some p => simp [splitFirstAux, hc, hsp] at h

/-- A nonempty value glued to the short configuration flag, not led by an
equals sign, classifies as the configuration option carrying that value. -/
lemma classify_c_glued (l : List Char) (h1 : l ≠ [])
    (h2 : charsStart [ Char.ofNat 61 ] l = false) :
    classify (String.mk ('-' :: 'c' :: l)) = .optConfig (some (String.mk l)) := by
  have hnec : (String.mk ('-' :: 'c' :: l) == "-c") = false := by
    simp only [beq_eq_false_iff_ne]
    intro e
    have hd : ('-' :: 'c' :: l) = "-c".data := congrArg String.data e
    have hd2 : "-c".data = [ '-', 'c' ] := rfl
    rw [hd2] at hd
    simp at hd
    exact h1 hd
  have e0 : String.mk ('-' :: 'c' :: l) ≠ "" := ne_of_beq_false rfl
  have e1 : String.mk ('-' :: 'c' :: l) ≠ "-h" := ne_of_beq_false rfl
  have e2 : String.mk ('-' :: 'c' :: l) ≠ "--help" := ne_of_beq_false rfl
  have e3 : String.mk ('-' :: 'c' :: l) ≠ "--config-file" := ne_of_beq_false rfl
  have e4 : String.mk ('-' :: 'c' :: l) ≠ "-L" := ne_of_beq_false rfl
  have e5 : String.mk ('-' :: 'c' :: l) ≠ "--log-level" := ne_of_beq_false rfl
  have e6 : String.mk ('-' :: 'c' :: l) ≠ "-c" := ne_of_beq_false hnec
  have e7 : strStarts "-" (String.mk ('-' :: 'c' :: l)) = true := rfl
  have e8 : getOptionTuples (String.mk ('-' :: 'c' :: l))
      = TokClass.optConfig (some (String.mk l)) := rfl
  have e9 : ((('-' : Char)) == Char.ofNat 61) = false := rfl
  have e10 : ((('c' : Char)) == Char.ofNat 61) = false := rfl
  cases hsp : splitFirstAux (Char.ofNat 61) l with
  | none =>
      simp [classify, splitFirst, splitFirstAux, hsp,
        e0, e1, e2, e3, e4, e5, e6, e7, e8, e9, e10]
  | some p =>
      obtain ⟨pre, post⟩ := p
      have hpre : pre ≠ [] := by
        intro e
        subst e
        have hl61 := splitFirstAux_nil_pre (Char.ofNat 61) l post hsp
        rw [hl61] at h2
        simp [charsStart] at h2
      cases pre with
      | nil => exact absurd rfl hpre
      | cons a as =>
          have f1 : String.mk ('-' :: 'c' :: a :: as) ≠ "-h" := ne_of_beq_false rfl
          have f2 : String.mk ('-' :: 'c' :: a :: as) ≠ "--help" := ne_of_beq_false rfl
          have f3 : String.mk ('-' :: 'c' :: a :: as) ≠ "-c" := ne_of_beq_false rfl
          have f4 : String.mk ('-' :: 'c' :: a :: as) ≠ "--config-file" := ne_of_beq_false rfl
          have f5 : String.mk ('-' :: 'c' :: a :: as) ≠ "-L" := ne_of_beq_false rfl
          have f6 : String.mk ('-' :: 'c' :: a :: as) ≠ "--log-level" := ne_of_beq_false rfl
          simp [classify, splitFirst, splitFirstAux, hsp,
            e0, e1, e2, e3, e4, e5, e6, e7, e8, e9, e10, f1, f2, f3, f4, f5, f6]

/-- C6 (amended): argument parsing accepts exactly the two flags, the
configuration-file path (default empty) and the log level (default info, from
the fixed choice set), plus argparse's automatic help flag; command lines
built from these flags with valid values are accepted without a process exit,
whether the value comes as a separate token, glued to the short flag, attached
with an equals sign, or the long flag is abbreviated to an unambiguous prefix,
but not every command-line input parses: an invalid log-level choice, an
unrecognised flag, a stray positional or a missing value make argparse exit
with code 2, and the help flag makes it exit with code 0. -/
theorem C6_argument_parsing (path lvl bad : String)
    (hpath : strStarts "-" path = false)
    (hnil : path ≠ "")
    (hneq : strStarts "=" path = false)
    (hl : lvl ∈ LOG_LEVEL_CHOICES)
    (hbad : bad ∉ LOG_LEVEL_CHOICES) :
    get_arguments [] = .ok (Args.mk "" "info") ∧
    get_arguments [ "--config-file", path, "--log-level", lvl ] = .ok (Args.mk path lvl) ∧
    get_arguments [ "-c", path, "-L", lvl ] = .ok (Args.mk path lvl) ∧
    get_arguments [ "-c" ++ path ] = .ok (Args.mk path "info") ∧
    get_arguments [ "--conf", path ] = .ok (Args.mk path "info") ∧
    get_arguments [ "--config-file=/x" ] = .ok (Args.mk "/x" "info") ∧
    get_arguments [ "-Ldebug" ] = .ok (Args.mk "" "debug") ∧
    get_arguments [ "--log-level=debug" ] = .ok (Args.mk "" "debug") ∧
    get_arguments [ "--log-level", bad ] = .error 2 ∧
    get_arguments [ "--frobnicate" ] = .error 2 ∧
    get_arguments [ "-x" ] = .error 2 ∧
    get_arguments [ "junk" ] = .error 2 ∧
    get_arguments [ "--config-file" ] = .error 2 ∧
    get_arguments [ "-c", "--log-level" ] = .error 2 ∧
    get_arguments [ "--help" ] = .error 0 ∧
    get_arguments [ "-h" ] = .error 0 := by
  have hplain : classify path = .plainArg := classify_plain path hpath
  have hpne : path ≠ "--" := ne_ddash path hpath
  have hlv : classify lvl = .plainArg ∧ (LOG_LEVEL_CHOICES.contains lvl) = true ∧
      lvl ≠ "--" := by
    simp only [LOG_LEVEL_CHOICES, List.mem_cons, List.not_mem_nil, or_false] at hl
    rcases hl with rfl | rfl | rfl | rfl | rfl <;> exact ⟨rfl, rfl, by decide⟩
  have hc1 : classify "--config-file" = TokClass.optConfig none := rfl
  have hc2 : classify "--log-level" = TokClass.optLog none := rfl
  have hc3 : classify "-c" = TokClass.optConfig none := rfl
  have hc4 : classify "-L" = TokClass.optLog none := rfl
  have hc5 : classify "--conf" = TokClass.optConfig none := rfl
  refine ⟨rfl, ?_, ?_, ?_, ?_, rfl, rfl, rfl, ?_, rfl, rfl, rfl, rfl, rfl, rfl, rfl⟩
  · simp [get_arguments, parseTokens, hplain, hpne, hlv.1, hlv.2.1, hlv.2.2, hl, hc1, hc2]
  · simp [get_arguments, parseTokens, hplain, hpne, hlv.1, hlv.2.1, hlv.2.2, hl, hc3, hc4]
  · obtain ⟨l⟩ := path
    have h1 : l ≠ [] := by
      intro e
      subst e
      exact hnil rfl
    have hg : classify (String.mk ('-' :: 'c' :: l)) = .optConfig (some (String.mk l)) :=
      classify_c_glued l h1 hneq
    have hne2 : String.mk ('-' :: 'c' :: l) ≠ "--" := ne_of_beq_false rfl
    show get_arguments [ String.mk ('-' :: 'c' :: l) ] = .ok (Args.mk (String.mk l) "info")
    simp [get_arguments, parseTokens, hg, hne2]
  · simp [get_arguments, parseTokens, hplain, hpne, hc5]
  · by_cases hbb : bad = "--"
    · subst hbb
      rfl
    · by_cases hamb : classify bad = .ambiguousOpt
      · simp [get_arguments, hamb, hbb, hc2]
      · have hcont : (LOG_LEVEL_CHOICES.contains bad) = false := by simp [hbad]
        rcases hcb : classify bad with a | a | a | _ | _ | _ <;>
          simp [get_arguments, parseTokens, hcb, hamb, hbb, hcont, hbad, hc2]

/-- Witness for C6: concrete command lines exercising every conjunct. -/
theorem C6_argument_parsing_witness :
    get_arguments [] = .ok (Args.mk "" "info") ∧
    get_arguments [ "--config-file", "/etc/pm.json", "--log-level", "debug" ]
      = .ok (Args.mk "/etc/pm.json" "debug") ∧
    get_arguments [ "-c", "/etc/pm.json", "-L", "debug" ] = .ok (Args.mk "/etc/pm.json" "debug") ∧
    get_arguments [ "-c" ++ "/etc/pm.json" ] = .ok (Args.mk "/etc/pm.json" "info") ∧
    get_arguments [ "--conf", "/etc/pm.json" ] = .ok (Args.mk "/etc/pm.json" "info") ∧
    get_arguments [ "--config-file=/x" ] = .ok (Args.mk "/x" "info") ∧
    get_arguments [ "-Ldebug" ] = .ok (Args.mk "" "debug") ∧
    get_arguments [ "--log-level=debug" ] = .ok (Args.mk "" "debug") ∧
    get_arguments [ "--log-level", "bogus" ] = .error 2 ∧
    get_arguments [ "--frobnicate" ] = .error 2 ∧
    get_arguments [ "-x" ] = .error 2 ∧
    get_arguments [ "junk" ] = .error 2 ∧
    get_arguments [ "--config-file" ] = .error 2 ∧
    get_arguments [ "-c", "--log-level" ] = .error 2 ∧
    get_arguments [ "--help" ] = .error 0 ∧
    get_arguments [ "-h" ] = .error 0 :=
  C6_argument_parsing "/etc/pm.json" "debug" "bogus"
    (by decide) (by decide) (by decide) (by decide) (by decide)

/-- C10 counterexample: with the unrecognised mode value UNKNOWN, the first
defensive else branch evaluates `SystemExit(1)` without raising it, but the
second else branch is never reached: the `setup_link` call site raises an
unbound-local error on `tunnel`, so the run crashes instead of falling through
both branches. -/
theorem C10_counterexample :
    (main (Env.mk (some (Configuration.mk "UNKNOWN" [] "ip" [] "" [] [] none))
        false "" [] (fun _ => "") 0 0)).2 = .nameError "tunnel" ∧
    Event.evalSystemExit 1 1 ∈
      (main (Env.mk (some (Configuration.mk "UNKNOWN" [] "ip" [] "" [] [] none))
        false "" [] (fun _ => "") 0 0)).1 ∧
    Event.evalSystemExit 2 1 ∉
      (main (Env.mk (some (Configuration.mk "UNKNOWN" [] "ip" [] "" [] [] none))
        false "" [] (fun _ => "") 0 0)).1 := by
  refine ⟨rfl, ?_, ?_⟩ <;> decide

/-- C10 (amended): for a configuration whose mode value is outside the four
recognised values, the first defensive else branch evaluates `SystemExit(1)`
without raising it and execution falls through the dispatch without exiting the
process and without constructing any tunnel, bootstrap agent or instructor;
the run then crashes with an unbound-local error at the `setup_link` call and
the second defensive else branch is never reached. -/
theorem C10_invalid_mode_falls_through (env : Env) (config : Configuration)
    (hp : env.parsedConfig = some config)
    (h1 : config.mode ≠ "FOR") (h2 : config.mode ≠ "TOR")
    (h3 : config.mode ≠ "FILE") (h4 : config.mode ≠ "INTERACTIVE") :
    (main env).2 = .nameError "tunnel" ∧
    (main env).1 =
      [ .openStateManager,
        .writeSshConfigFile LOCAL_PATH_SSH_CFG config.gateways config.destination_host_ip,
        .constructTransferAgent LOCAL_PATH_SSH_CFG config.all_hosts,
        .evalSystemExit 1 1,
        .closeStateManager ] := by
  constructor <;>
    simp [main, parse_config_file, modeLog, stateBody, dispatch, hp, h1, h2, h3, h4]

/-- Witness for C10: a concrete run with the unrecognised mode value BOGUS. -/
theorem C10_invalid_mode_falls_through_witness :
    (main (Env.mk (some (Configuration.mk "BOGUS" [ "gw" ] "ip" [ "gw", "dst" ] "" [] [] none))
        false "" [] (fun _ => "") 0 0)).2 = .nameError "tunnel" ∧
    (main (Env.mk (some (Configuration.mk "BOGUS" [ "gw" ] "ip" [ "gw", "dst" ] "" [] [] none))
        false "" [] (fun _ => "") 0 0)).1 =
      [ .openStateManager,
        .writeSshConfigFile LOCAL_PATH_SSH_CFG [ "gw" ] "ip",
        .constructTransferAgent LOCAL_PATH_SSH_CFG [ "gw", "dst" ],
        .evalSystemExit 1 1,
        .closeStateManager ] :=
  C10_invalid_mode_falls_through
    (Env.mk (some (Configuration.mk "BOGUS" [ "gw" ] "ip" [ "gw", "dst" ] "" [] [] none))
      false "" [] (fun _ => "") 0 0)
    (Configuration.mk "BOGUS" [ "gw" ] "ip" [ "gw", "dst" ] "" [] [] none)
    rfl (by decide) (by decide) (by decide) (by decide)

/-- C3: for each of the four valid mode values the dispatch constructs exactly
one instructor, namely the variant matching the mode, and the run logs the
matching mode-enabled message; the branches are mutually exclusive and
exhaustive over valid configurations. -/
theorem C3_mode_dispatch (env : Env) (config : Configuration)
    (hp : env.parsedConfig = some config)
    (hm : config.mode = "FOR" ∨ config.mode = "TOR" ∨ config.mode = "FILE" ∨
      config.mode = "INTERACTIVE") :
    ((main env).1.filter isInstructorEvent) =
      [ .constructInstructor (instructorOf config.mode) ] ∧
    Event.logInfo ("mode " ++ config.mode ++ " enabled") ∈ (main env).1 := by
  by_cases hs : env.setupFails <;>
  rcases heartbeatBody_snd config env with hout | hout <;>
  rcases hm with h | h | h | h <;>
    simp [main, parse_config_file, modeLog, stateBody, dispatch, instructorOf, hp, h, hs, hout,
      isInstructorEvent, List.filter_append, heartbeatBody_no_instructor]

/-- Witness for C3: a concrete FOR-mode run constructs exactly the FOR
instructor and logs the FOR message. -/
theorem C3_mode_dispatch_witness :
    ((main (Env.mk (some (Configuration.mk "FOR" [ "gw" ] "ip" [ "gw", "dst" ] "fwd" [ 80 ] []
        none)) false "" [] (fun _ => "") 0 0)).1.filter isInstructorEvent) =
      [ .constructInstructor (instructorOf "FOR") ] ∧
    Event.logInfo ("mode " ++ "FOR" ++ " enabled") ∈
      (main (Env.mk (some (Configuration.mk "FOR" [ "gw" ] "ip" [ "gw", "dst" ] "fwd" [ 80 ] []
        none)) false "" [] (fun _ => "") 0 0)).1 :=
  C3_mode_dispatch
    (Env.mk (some (Configuration.mk "FOR" [ "gw" ] "ip" [ "gw", "dst" ] "fwd" [ 80 ] [] none))
      false "" [] (fun _ => "") 0 0)
    (Configuration.mk "FOR" [ "gw" ] "ip" [ "gw", "dst" ] "fwd" [ 80 ] [] none)
    rfl (Or.inl rfl)

/-- C2: when `setup_link` raises the distinguished setup-failure error, the
driver logs the error, the run exits with code 1, and no mode-loop action
(command execution, printing, file transfer, sleeping, application launch)
ever happens. -/
theorem C2_setup_failure_exit1 (env : Env) (config : Configuration)
    (hp : env.parsedConfig = some config)
    (hm : config.mode = "FOR" ∨ config.mode = "TOR" ∨ config.mode = "FILE" ∨
      config.mode = "INTERACTIVE")
    (hf : env.setupFails = true) :
    (main env).2 = .exited 1 ∧
    Event.logError env.setupFailMsg ∈ (main env).1 ∧
    ∀ e ∈ (main env).1, isModeLoopEvent e = false := by
  rcases hm with h | h | h | h <;>
    simp [main, parse_config_file, modeLog, stateBody, dispatch, hp, h, hf, isModeLoopEvent]

/-- Witness for C2: a concrete FILE-mode run whose setup fails. -/
theorem C2_setup_failure_exit1_witness :
    (main (Env.mk (some (Configuration.mk "FILE" [ "gw" ] "ip" [ "gw", "dst" ] "" [] [ "a" ]
        none)) true "boom" [] (fun _ => "") 0 0)).2 = .exited 1 ∧
    Event.logError "boom" ∈
      (main (Env.mk (some (Configuration.mk "FILE" [ "gw" ] "ip" [ "gw", "dst" ] "" [] [ "a" ]
        none)) true "boom" [] (fun _ => "") 0 0)).1 ∧
    ∀ e ∈ (main (Env.mk (some (Configuration.mk "FILE" [ "gw" ] "ip" [ "gw", "dst" ] "" [] [ "a" ]
        none)) true "boom" [] (fun _ => "") 0 0)).1, isModeLoopEvent e = false :=
  C2_setup_failure_exit1
    (Env.mk (some (Configuration.mk "FILE" [ "gw" ] "ip" [ "gw", "dst" ] "" [] [ "a" ] none))
      true "boom" [] (fun _ => "") 0 0)
    (Configuration.mk "FILE" [ "gw" ] "ip" [ "gw", "dst" ] "" [] [ "a" ] none)
    rfl (Or.inr (Or.inr (Or.inl rfl))) rfl

/-- C5: in FILE mode with a successful setup, the driver performs exactly one
transfer call carrying the configured file list, exits with code 0, and the
only mode-loop action in the whole run is that single transfer (no application
launch, no idle loop). -/
theorem C5_file_mode_single_transfer (env : Env) (config : Configuration)
    (hp : env.parsedConfig = some config) (hm : config.mode = "FILE")
    (hs : env.setupFails = false) :
    (main env).2 = .exited 0 ∧
    (main env).1 =
      [ .logInfo "mode FILE enabled",
        .openStateManager,
        .writeSshConfigFile LOCAL_PATH_SSH_CFG config.gateways config.destination_host_ip,
        .constructTransferAgent LOCAL_PATH_SSH_CFG config.all_hosts,
        .constructTunnel LOCAL_PATH_SSH_CFG "FILE" config.all_hosts none,
        .constructBootstrapAgent,
        .constructInstructor .FileInstructor,
        .setupLink, .purgeBuffer, .openHeartbeat 33193,
        .transfer config.files,
        .closeHeartbeat, .closeStateManager ] ∧
    ((main env).1.filter isTransferEvent) = [ .transfer config.files ] ∧
    ∀ e ∈ (main env).1, isModeLoopEvent e = true → e = .transfer config.files := by
  refine ⟨?_, ?_, ?_, ?_⟩ <;>
    simp [main, parse_config_file, modeLog, stateBody, dispatch, heartbeatBody, hp, hm, hs,
      groupPort_heartbeat, isTransferEvent, isModeLoopEvent]

/-- Witness for C5: a concrete FILE-mode run transferring one file. -/
theorem C5_file_mode_single_transfer_witness :
    (main (Env.mk (some (Configuration.mk "FILE" [ "gw" ] "ip" [ "gw", "dst" ] "" [] [ "a.txt" ]
        none)) false "" [] (fun _ => "") 0 0)).2 = .exited 0 ∧
    (main (Env.mk (some (Configuration.mk "FILE" [ "gw" ] "ip" [ "gw", "dst" ] "" [] [ "a.txt" ]
        none)) false "" [] (fun _ => "") 0 0)).1 =
      [ .logInfo "mode FILE enabled",
        .openStateManager,
        .writeSshConfigFile LOCAL_PATH_SSH_CFG [ "gw" ] "ip",
        .constructTransferAgent LOCAL_PATH_SSH_CFG [ "gw", "dst" ],
        .constructTunnel LOCAL_PATH_SSH_CFG "FILE" [ "gw", "dst" ] none,
        .constructBootstrapAgent,
        .constructInstructor .FileInstructor,
        .setupLink, .purgeBuffer, .openHeartbeat 33193,
        .transfer [ "a.txt" ],
        .closeHeartbeat, .closeStateManager ] ∧
    ((main (Env.mk (some (Configuration.mk "FILE" [ "gw" ] "ip" [ "gw", "dst" ] "" [] [ "a.txt" ]
        none)) false "" [] (fun _ => "") 0 0)).1.filter isTransferEvent) =
      [ .transfer [ "a.txt" ] ] ∧
    ∀ e ∈ (main (Env.mk (some (Configuration.mk "FILE" [ "gw" ] "ip" [ "gw", "dst" ] "" []
        [ "a.txt" ] none)) false "" [] (fun _ => "") 0 0)).1,
      isModeLoopEvent e = true → e = .transfer [ "a.txt" ] :=
  C5_file_mode_single_transfer
    (Env.mk (some (Configuration.mk "FILE" [ "gw" ] "ip" [ "gw", "dst" ] "" [] [ "a.txt" ] none))
      false "" [] (fun _ => "") 0 0)
    (Configuration.mk "FILE" [ "gw" ] "ip" [ "gw", "dst" ] "" [] [ "a.txt" ] none)
    rfl rfl rfl

/-- C7: in INTERACTIVE mode with a successful setup, the interrupt that ends
the input loop makes the run exit with code 0. -/
theorem C7_interactive_interrupt_exit0 (env : Env) (config : Configuration)
    (hp : env.parsedConfig = some config) (hm : config.mode = "INTERACTIVE")
    (hs : env.setupFails = false) :
    (main env).2 = .exited 0 := by
  simp [main, parse_config_file, stateBody, dispatch, heartbeatBody, hp, hm, hs]

/-- Witness for C7: a concrete INTERACTIVE-mode run interrupted after one
command. -/
theorem C7_interactive_interrupt_exit0_witness :
    (main (Env.mk (some (Configuration.mk "INTERACTIVE" [ "gw" ] "ip" [ "gw", "dst" ] "" [] []
        none)) false "" [ "ls" ] (fun _ => "ok") 0 0)).2 = .exited 0 :=
  C7_interactive_interrupt_exit0
    (Env.mk (some (Configuration.mk "INTERACTIVE" [ "gw" ] "ip" [ "gw", "dst" ] "" [] [] none))
      false "" [ "ls" ] (fun _ => "ok") 0 0)
    (Configuration.mk "INTERACTIVE" [ "gw" ] "ip" [ "gw", "dst" ] "" [] [] none)
    rfl rfl rfl

/-- C4: in INTERACTIVE mode every input line is forwarded verbatim as the
argument of the exec-command call, and the decoded response is split on the
newline character and printed one piece per line behind the greater-than and
four-space prefix; the whole run trace is exactly the setup, the three
warnings, that per-line exchange, and the scope teardown. -/
theorem C4_interactive_verbatim (env : Env) (config : Configuration)
    (hp : env.parsedConfig = some config) (hm : config.mode = "INTERACTIVE")
    (hs : env.setupFails = false) :
    (main env).2 = .exited 0 ∧
    (main env).1 =
      [ .logInfo "mode INTERACTIVE enabled",
        .openStateManager,
        .writeSshConfigFile LOCAL_PATH_SSH_CFG config.gateways config.destination_host_ip,
        .constructTransferAgent LOCAL_PATH_SSH_CFG config.all_hosts,
        .constructTunnel LOCAL_PATH_SSH_CFG "INTERACTIVE" config.all_hosts none,
        .constructBootstrapAgent,
        .constructInstructor .InteractiveInstructor,
        .setupLink, .purgeBuffer, .openHeartbeat 33193,
        .logWarning "the interface does not support shell meta characters ",
        .logWarning "such as pipe and it\x27s not possible to interact with ",
        .logWarning "programs that need a response. hit control-c to quit" ]
      ++ env.stdinLines.flatMap
          (fun cmd =>
            .execCommand cmd ::
              ((pySplit (env.execResponse cmd) (Char.ofNat 10)).map
                (fun line => .print (">    " ++ line))))
      ++ [ .closeHeartbeat, .closeStateManager ] := by
  refine ⟨?_, ?_⟩ <;>
    simp [main, parse_config_file, modeLog, stateBody, dispatch, heartbeatBody, hp, hm, hs,
      groupPort_heartbeat, interactiveLoop_eq_flatMap]

/-- Witness for C4: a concrete run typing the line echo hi whose decoded
response is the text hi followed by a newline. -/
theorem C4_interactive_verbatim_witness :
    (main (Env.mk (some (Configuration.mk "INTERACTIVE" [ "gw" ] "ip" [ "gw", "dst" ] "" [] []
        none)) false "" [ "echo hi" ] (fun _ => "hi\n") 0 0)).2 = .exited 0 ∧
    (main (Env.mk (some (Configuration.mk "INTERACTIVE" [ "gw" ] "ip" [ "gw", "dst" ] "" [] []
        none)) false "" [ "echo hi" ] (fun _ => "hi\n") 0 0)).1 =
      [ .logInfo "mode INTERACTIVE enabled",
        .openStateManager,
        .writeSshConfigFile LOCAL_PATH_SSH_CFG [ "gw" ] "ip",
        .constructTransferAgent LOCAL_PATH_SSH_CFG [ "gw", "dst" ],
        .constructTunnel LOCAL_PATH_SSH_CFG "INTERACTIVE" [ "gw", "dst" ] none,
        .constructBootstrapAgent,
        .constructInstructor .InteractiveInstructor,
        .setupLink, .purgeBuffer, .openHeartbeat 33193,
        .logWarning "the interface does not support shell meta characters ",
        .logWarning "such as pipe and it\x27s not possible to interact with ",
        .logWarning "programs that need a response. hit control-c to quit",
        .execCommand "echo hi",
        .print ">    hi",
        .print ">    ",
        .closeHeartbeat, .closeStateManager ] :=
  C4_interactive_verbatim
    (Env.mk (some (Configuration.mk "INTERACTIVE" [ "gw" ] "ip" [ "gw", "dst" ] "" [] [] none))
      false "" [ "echo hi" ] (fun _ => "hi\n") 0 0)
    (Configuration.mk "INTERACTIVE" [ "gw" ] "ip" [ "gw", "dst" ] "" [] [] none)
    rfl rfl rfl

/-- C8: in a persistent mode that launched the configured application, the
interrupt arriving during the 5-second idle ticks terminates the child
process, and the re-raised interrupt unwinds through the heartbeat and
state-manager scopes, which close behind it; in INTERACTIVE mode the launch
branch is never reached (its loop always exits first), so FOR and TOR are the
only persistent modes in which a launch can occur. -/
theorem C8_app_interrupt_teardown (env : Env) (config : Configuration) (app : Application)
    (hp : env.parsedConfig = some config)
    (hm : config.mode = "FOR" ∨ config.mode = "TOR")
    (ha : config.application = some app)
    (hs : env.setupFails = false) :
    ((main env).2 = .keyboardInterrupt ∧
     ∃ pre, (main env).1 =
        pre ++ List.replicate env.appSleeps (.sleep 5)
          ++ [ .terminateProcess, .closeHeartbeat, .closeStateManager ] ∧
      Event.startApplication app.binary_name app.binary_location ∈ pre) ∧
    (∀ env2 : Env, ∀ config2 : Configuration, env2.parsedConfig = some config2 →
      config2.mode = "INTERACTIVE" →
      ∀ name loc : String, Event.startApplication name loc ∉ (main env2).1) := by
  refine ⟨?_, ?_⟩
  case refine_2 =>
    intro env2 config2 hp2 hm2 name loc
    by_cases hs2 : env2.setupFails <;>
      simp [main, parse_config_file, modeLog, stateBody, dispatch, heartbeatBody, hp2, hm2,
        hs2, interactiveLoop_no_start]
  rcases hm with h | h
  · refine ⟨?_, ?_⟩
    · simp [main, parse_config_file, stateBody, dispatch, heartbeatBody, afterModeBranch,
        hp, h, hs, ha]
    · refine ⟨[ .logInfo "mode FOR enabled", .openStateManager,
        .writeSshConfigFile LOCAL_PATH_SSH_CFG config.gateways config.destination_host_ip,
        .constructTransferAgent LOCAL_PATH_SSH_CFG config.all_hosts,
        .constructTunnel LOCAL_PATH_SSH_CFG "FOR" config.all_hosts
          (some config.forwarders_string),
        .constructBootstrapAgent, .constructInstructor .ForInstructor,
        .setupLink, .purgeBuffer, .openHeartbeat 33193,
        .logInfoArg "connections on local ports %s will be forwarded"
          (toString config.forwarders_ports),
        .logInfo "READY", .logInfo "starting application...",
        .startApplication app.binary_name app.binary_location ], ?_, ?_⟩
      · simp [main, parse_config_file, modeLog, stateBody, dispatch, heartbeatBody,
          afterModeBranch, hp, h, hs, ha, groupPort_heartbeat]
      · simp
  · refine ⟨?_, ?_⟩
    · simp [main, parse_config_file, stateBody, dispatch, heartbeatBody, afterModeBranch,
        hp, h, hs, ha]
    · refine ⟨[ .logInfo "mode TOR enabled", .openStateManager,
        .writeSshConfigFile LOCAL_PATH_SSH_CFG config.gateways config.destination_host_ip,
        .constructTransferAgent LOCAL_PATH_SSH_CFG config.all_hosts,
        .constructTunnel LOCAL_PATH_SSH_CFG "TOR" config.all_hosts none,
        .constructBootstrapAgent, .constructInstructor .TorInstructor,
        .setupLink, .purgeBuffer, .openHeartbeat 33193,
        .logInfoArg "local port %s will be listening for web traffic"
          (toString (groupPort "local_port_proxy")),
        .logInfo "READY", .logInfo "starting application...",
        .startApplication app.binary_name app.binary_location ], ?_, ?_⟩
      · simp [main, parse_config_file, modeLog, stateBody, dispatch, heartbeatBody,
          afterModeBranch, hp, h, hs, ha, groupPort_heartbeat]
      · simp

/-- Witness for C8: a concrete FOR-mode run with an application, interrupted
after one 5-second tick. -/
theorem C8_app_interrupt_teardown_witness :
    ((main (Env.mk (some (Configuration.mk "FOR" [ "gw" ] "ip" [ "gw", "dst" ] "fwd" [ 80 ] []
        (some (Application.mk "ff" "/usr/bin")))) false "" [] (fun _ => "") 1 0)).2 =
      .keyboardInterrupt ∧
     ∃ pre, (main (Env.mk (some (Configuration.mk "FOR" [ "gw" ] "ip" [ "gw", "dst" ] "fwd"
        [ 80 ] [] (some (Application.mk "ff" "/usr/bin")))) false "" [] (fun _ => "") 1 0)).1 =
        pre ++ List.replicate 1 (.sleep 5)
          ++ [ .terminateProcess, .closeHeartbeat, .closeStateManager ] ∧
      Event.startApplication "ff" "/usr/bin" ∈ pre) ∧
    (∀ env2 : Env, ∀ config2 : Configuration, env2.parsedConfig = some config2 →
      config2.mode = "INTERACTIVE" →
      ∀ name loc : String, Event.startApplication name loc ∉ (main env2).1) :=
  C8_app_interrupt_teardown
    (Env.mk (some (Configuration.mk "FOR" [ "gw" ] "ip" [ "gw", "dst" ] "fwd" [ 80 ] []
      (some (Application.mk "ff" "/usr/bin")))) false "" [] (fun _ => "") 1 0)
    (Configuration.mk "FOR" [ "gw" ] "ip" [ "gw", "dst" ] "fwd" [ 80 ] []
      (some (Application.mk "ff" "/usr/bin")))
    (Application.mk "ff" "/usr/bin")
    rfl (Or.inl rfl) rfl rfl

/-- C9: an interrupt during the 1-second idle loop with no application running
unwinds so that the heartbeat scope and then the state-manager scope are each
torn down exactly once, in reverse of their acquisition order: the trace ends
with the heartbeat close immediately followed by the state-manager close, and
neither close occurs anywhere earlier. -/
theorem C9_idle_interrupt_teardown (env : Env) (config : Configuration)
    (hp : env.parsedConfig = some config)
    (hm : config.mode = "FOR" ∨ config.mode = "TOR")
    (ha : config.application = none)
    (hs : env.setupFails = false) :
    (main env).2 = .keyboardInterrupt ∧
    ∃ pre, (main env).1 = pre ++ [ .closeHeartbeat, .closeStateManager ] ∧
      Event.closeHeartbeat ∉ pre ∧ Event.closeStateManager ∉ pre := by
  rcases hm with h | h
  · refine ⟨?_, ?_⟩
    · simp [main, parse_config_file, stateBody, dispatch, heartbeatBody, afterModeBranch,
        hp, h, hs, ha]
    · refine ⟨[ .logInfo "mode FOR enabled", .openStateManager,
        .writeSshConfigFile LOCAL_PATH_SSH_CFG config.gateways config.destination_host_ip,
        .constructTransferAgent LOCAL_PATH_SSH_CFG config.all_hosts,
        .constructTunnel LOCAL_PATH_SSH_CFG "FOR" config.all_hosts
          (some config.forwarders_string),
        .constructBootstrapAgent, .constructInstructor .ForInstructor,
        .setupLink, .purgeBuffer, .openHeartbeat 33193,
        .logInfoArg "connections on local ports %s will be forwarded"
          (toString config.forwarders_ports),
        .logInfo "READY" ] ++ List.replicate env.idleSleeps (.sleep 1), ?_, ?_, ?_⟩
      · simp [main, parse_config_file, modeLog, stateBody, dispatch, heartbeatBody,
          afterModeBranch, hp, h, hs, ha, groupPort_heartbeat, idle_flatten]
      · simp [List.mem_append, List.mem_replicate]
      · simp [List.mem_append, List.mem_replicate]
  · refine ⟨?_, ?_⟩
    · simp [main, parse_config_file, stateBody, dispatch, heartbeatBody, afterModeBranch,
        hp, h, hs, ha]
    · refine ⟨[ .logInfo "mode TOR enabled", .openStateManager,
        .writeSshConfigFile LOCAL_PATH_SSH_CFG config.gateways config.destination_host_ip,
        .constructTransferAgent LOCAL_PATH_SSH_CFG config.all_hosts,
        .constructTunnel LOCAL_PATH_SSH_CFG "TOR" config.all_hosts none,
        .constructBootstrapAgent, .constructInstructor .TorInstructor,
        .setupLink, .purgeBuffer, .openHeartbeat 33193,
        .logInfoArg "local port %s will be listening for web traffic"
          (toString (groupPort "local_port_proxy")),
        .logInfo "READY" ] ++ List.replicate env.idleSleeps (.sleep 1), ?_, ?_, ?_⟩
      · simp [main, parse_config_file, modeLog, stateBody, dispatch, heartbeatBody,
          afterModeBranch, hp, h, hs, ha, groupPort_heartbeat, idle_flatten]
      · simp [List.mem_append, List.mem_replicate]
      · simp [List.mem_append, List.mem_replicate]

/-- Witness for C9: a concrete TOR-mode run with no application, interrupted
after two 1-second ticks. -/
theorem C9_idle_interrupt_teardown_witness :
    (main (Env.mk (some (Configuration.mk "TOR" [ "gw" ] "ip" [ "gw", "dst" ] "" [] [] none))
        false "" [] (fun _ => "") 0 2)).2 = .keyboardInterrupt ∧
    ∃ pre, (main (Env.mk (some (Configuration.mk "TOR" [ "gw" ] "ip" [ "gw", "dst" ] "" [] []
        none)) false "" [] (fun _ => "") 0 2)).1 =
        pre ++ [ .closeHeartbeat, .closeStateManager ] ∧
      Event.closeHeartbeat ∉ pre ∧ Event.closeStateManager ∉ pre :=
  C9_idle_interrupt_teardown
    (Env.mk (some (Configuration.mk "TOR" [ "gw" ] "ip" [ "gw", "dst" ] "" [] [] none))
      false "" [] (fun _ => "") 0 2)
    (Configuration.mk "TOR" [ "gw" ] "ip" [ "gw", "dst" ] "" [] [] none)
    rfl (Or.inr rfl) rfl rfl

end Powermole
